import Mathlib

/-!
Shallow embedding of the NeonBlue frontend core (src/lib/api.ts,
src/components/ExperimentsDashboard.tsx, src/types/api.ts): the session
state, the API client's request pipeline, the results transformers and the
load-controller transitions, together with theorems checking the spec's
claims about them.

Modelling conventions: TypeScript numbers that are counts or identifiers
become `Nat`; rates and allocations (which are only copied, never computed
with) become `Rat`; JavaScript objects used as string-keyed records become
association lists in insertion order, with assignment-to-existing-key
updating in place (as JS `Record` assignment does); `null`/`undefined`
become `Option`; a rejected promise becomes `Except.error` carrying the
error message.
-/

set_option autoImplicit false

namespace NeonBlue

/-- JSON values, used for free-form payloads (`config`, the health body). -/
inductive Json where
  | null
  | bool (b : Bool)
  | num (q : Rat)
  | str (s : String)
  | arr (elems : List Json)
  | obj (fields : List (String × Json))

/-! ## Domain model (src/types/api.ts) -/

/-- Experiment lifecycle status (src/types/api.ts, `Experiment.status`). -/
inductive ExperimentStatus where
  | draft
  | running
  | paused
  | completed
deriving DecidableEq, Repr

/-- Variant (src/types/api.ts). -/
structure Variant where
  id : Nat
  experiment_id : Nat
  name : String
  traffic_allocation : Rat
  config : Option (List (String × Json))

/-- Experiment (src/types/api.ts). -/
structure Experiment where
  id : Nat
  name : String
  description : Option String
  status : ExperimentStatus
  created_at : String
  started_at : Option String
  ended_at : Option String
  variants : List Variant

/-- ExperimentsListResponse (src/types/api.ts). -/
structure ExperimentsListResponse where
  experiments : List Experiment
  total : Nat
  limit : Nat
  offset : Nat

/-- VariantMetrics (src/types/api.ts); `events_by_type` is a string-keyed
record of counts, modelled as an association list in insertion order. -/
structure VariantMetrics where
  variant_id : Nat
  variant_name : String
  total_assignments : Nat
  total_events : Nat
  unique_users_with_events : Nat
  conversion_rate : Rat
  events_by_type : List (String × Nat)
  events_per_user : Rat

/-- TimeSeriesDataPoint (src/types/api.ts). -/
structure TimeSeriesDataPoint where
  timestamp : String
  variant_id : Nat
  variant_name : String
  assignments : Nat
  events : Nat
  conversion_rate : Rat

/-- Confidence classification (src/types/api.ts, `ResultsSummary.confidence_level`). -/
inductive ConfidenceLevel where
  | low
  | medium
  | high
  | significant
deriving DecidableEq, Repr

/-- ResultsSummary (src/types/api.ts). -/
structure ResultsSummary where
  total_assignments : Nat
  total_events : Nat
  overall_conversion_rate : Rat
  leading_variant : Option String
  confidence_level : ConfidenceLevel

/-- ExperimentResults (src/types/api.ts): the top-level results payload. -/
structure ExperimentResults where
  experiment_id : Nat
  experiment_name : String
  experiment_status : ExperimentStatus
  analysis_start : String
  analysis_end : String
  summary : ResultsSummary
  variant_metrics : List VariantMetrics
  time_series : List TimeSeriesDataPoint
  events_by_type : List (String × Nat)
  generated_at : String

/-! ## API client (src/lib/api.ts) -/

/-- JavaScript `v || fallback` on an optional string: `undefined`/`null` and
the empty string are falsy and select the fallback. -/
def jsOr (v : Option String) (fallback : String) : String :=
  match v with
  | some s => if s = "" then fallback else s
  | none => fallback

/-- Request headers built by `fetchWithAuth` (src/lib/api.ts lines 23-30):
a JSON content type, then `Authorization: Bearer <token>` when the stored
token is truthy (non-null and non-empty). Call sites in this repository
pass no extra `options.headers`. -/
def requestHeaders (authToken : Option String) : List (String × String) :=
  [("Content-Type", "application/json")] ++
    (match authToken with
     | some t => if t = "" then [] else [("Authorization", "Bearer " ++ t)]
     | none => [])

/-- Outcome of `response.json()` on an error response: either the body was
absent or unparsable (the promise rejects), or it parsed to an object whose
`detail` field is `none` (missing) or `some d` (present; `d = ""` is falsy). -/
inductive BodyParse where
  | failed
  | parsed (detail : Option String)
deriving DecidableEq, Repr

/-- HTTP response as seen by `fetchWithAuth`: the `ok` flag, the numeric
status, and the outcome of parsing the body as JSON. -/
structure HttpResponse where
  ok : Bool
  status : Nat
  body : BodyParse
deriving DecidableEq, Repr

/-- Error-path `detail` in `fetchWithAuth` (src/lib/api.ts line 38):
`await response.json().catch(() => (detail Unknown error))` substitutes the
object with `detail = "Unknown error"` when the body fails to parse. -/
def errorDetail (body : BodyParse) : Option String :=
  match body with
  | .failed => some "Unknown error"
  | .parsed d => d

/-- Result of `fetchWithAuth` (src/lib/api.ts lines 37-42) as a function of
the response: on a non-ok status it throws `error.detail || "HTTP <status>"`;
on success it returns the parsed body. -/
def fetchWithAuth (resp : HttpResponse) : Except String BodyParse :=
  if resp.ok then .ok resp.body
  else .error (jsOr (errorDetail resp.body) ("HTTP " ++ toString resp.status))

/-- Parameters of `getExperiments` (src/lib/api.ts lines 50-54). -/
structure GetExperimentsParams where
  status : Option String
  limit : Option Nat
  offset : Option Nat
deriving DecidableEq, Repr

/-- One guarded `if (params?.x) searchParams.set(key, x)` line for a string
parameter: serialized only when present and truthy (non-empty). -/
def optStrParam (key : String) (v : Option String) : List (String × String) :=
  match v with
  | some s => if s = "" then [] else [(key, s)]
  | none => []

/-- One guarded `if (params?.x) searchParams.set(key, x.toString())` line for
a numeric parameter: serialized only when present and truthy (non-zero). -/
def optNatParam (key : String) (v : Option Nat) : List (String × String) :=
  match v with
  | some n => if n = 0 then [] else [(key, toString n)]
  | none => []

/-- One guarded `if (params?.x) searchParams.set(key, 'true')` line for a
boolean parameter: serialized, as the literal "true", only when `true`. -/
def optBoolParam (key : String) (v : Option Bool) : List (String × String) :=
  match v with
  | some b => if b then [(key, "true")] else []
  | none => []

/-- Query pairs assembled by `getExperiments` (src/lib/api.ts lines 55-58),
one combinator per source line, in source order. -/
def getExperimentsQuery (p : GetExperimentsParams) : List (String × String) :=
  optStrParam "status" p.status ++
  optNatParam "limit" p.limit ++
  optNatParam "offset" p.offset

/-- Parameters of `getExperimentResults` (src/lib/api.ts lines 72-79);
`format` and `time_series_granularity` are string unions, kept as strings. -/
structure GetResultsParams where
  start_date : Option String
  end_date : Option String
  event_types : Option String
  format : Option String
  include_time_series : Option Bool
  time_series_granularity : Option String
deriving DecidableEq, Repr

/-- Query pairs assembled by `getExperimentResults` (src/lib/api.ts lines
81-89), one combinator per source line, in source order: string parameters
serialize when truthy; `include_time_series` serializes as the literal
"true" only when the boolean is `true`. -/
def getExperimentResultsQuery (p : GetResultsParams) : List (String × String) :=
  optStrParam "start_date" p.start_date ++
  optStrParam "end_date" p.end_date ++
  optStrParam "event_types" p.event_types ++
  optStrParam "format" p.format ++
  optBoolParam "include_time_series" p.include_time_series ++
  optStrParam "time_series_granularity" p.time_series_granularity

/-- Outcome of the raw `fetch` issued by `checkHealth`: a network failure,
or a response with its `ok` flag, status, and JSON body (`none` when the
body is not valid JSON, making `response.json()` reject). -/
inductive HealthFetchOutcome where
  | networkError
  | response (ok : Bool) (status : Nat) (body : Option Json)

/-- checkHealth (src/lib/api.ts lines 45-48): it performs a bare fetch of
`/health` and returns `response.json()` without ever consulting the status,
so it resolves exactly when the fetch succeeded and the body parsed. -/
def checkHealth (o : HealthFetchOutcome) : Except String Json :=
  match o with
  | .networkError => .error "Failed to fetch"
  | .response _ _ body =>
    match body with
    | some j => .ok j
    | none => .error "Unexpected token"

/-! ## Results transformers (src/components/ExperimentsDashboard.tsx) -/

/-- JavaScript-style capitalization used throughout the dashboard:
`s.charAt(0).toUpperCase() + s.slice(1)`; the empty string maps to itself. -/
def capitalize (s : String) : String :=
  match s.toList with
  | [] => ""
  | c :: cs => String.mk (c.toUpper :: cs)

/-- Lookup in a string-keyed record with the JS default `m[k] || 0`:
an absent key (and a stored 0) both yield 0. -/
def lookupOr0 (m : List (String × Nat)) (k : String) : Nat :=
  match m.lookup k with
  | some v => v
  | none => 0

/-- Record assignment `row[k] = v` on an insertion-ordered record:
an existing key keeps its position and takes the new value, a new key is
appended at the end. -/
def recordSet (m : List (String × Nat)) (k : String) (v : Nat) :
    List (String × Nat) :=
  if (m.lookup k).isSome then
    m.map (fun p => if p.1 = k then (k, v) else p)
  else
    m ++ [(k, v)]

/-- Insertion-ordered set `add`: append the key unless already present
(JS `Set.add` over `Object.keys` iteration). -/
def insertIfNew (a : List String) (k : String) : List String :=
  if k ∈ a then a else a ++ [k]

/-- Component state the chart-data transformers read: the selected
experiment and the results snapshot, either possibly absent. -/
structure ChartState where
  selectedExperiment : Option Experiment
  results : Option ExperimentResults

/-- variantAllocationData (ExperimentsDashboard.tsx lines 201-204):
`selectedExperiment?.variants.map(...) || []`; reads only the selected
experiment, never the results snapshot. -/
def variantAllocationData (s : ChartState) : List (String × Rat) :=
  match s.selectedExperiment with
  | some e => e.variants.map (fun v => (v.name, v.traffic_allocation))
  | none => []

/-- Entry of the conversion view (ExperimentsDashboard.tsx lines 207-213). -/
structure ConversionDatum where
  variant : String
  rate : Rat
  assignments : Nat
  events : Nat
deriving DecidableEq, Repr

/-- conversionData (ExperimentsDashboard.tsx lines 207-213):
`results?.variant_metrics?.map(...) || []`, copying `conversion_rate`
unchanged. -/
def conversionData (s : ChartState) : List ConversionDatum :=
  match s.results with
  | some r =>
    r.variant_metrics.map (fun vm =>
      { variant := vm.variant_name
        rate := vm.conversion_rate
        assignments := vm.total_assignments
        events := vm.total_events })
  | none => []

/-- eventsByTypeData (ExperimentsDashboard.tsx lines 216-221):
`Object.entries(results.events_by_type)` with the type label capitalized;
`[]` when results are absent. -/
def eventsByTypeData (s : ChartState) : List (String × Nat) :=
  match s.results with
  | some r => r.events_by_type.map (fun p => (capitalize p.1, p.2))
  | none => []

/-- Union of the event-type keys across `variant_metrics`, in first-seen
order with duplicates removed (the `Set` built at ExperimentsDashboard.tsx
lines 226-229). -/
def unionEventTypes (metrics : List VariantMetrics) : List String :=
  metrics.foldl
    (fun acc vm => (vm.events_by_type.map Prod.fst).foldl insertIfNew acc) []

/-- Row of the variant×event-type matrix for one raw event type
(ExperimentsDashboard.tsx lines 231-239): the capitalized label, and one
record entry per variant assignment `row[vm.variant_name] =
vm.events_by_type[eventType] || 0`. -/
def variantEventsRow (metrics : List VariantMetrics) (eventType : String) :
    String × List (String × Nat) :=
  (capitalize eventType,
   metrics.foldl
     (fun row vm => recordSet row vm.variant_name (lookupOr0 vm.events_by_type eventType))
     [])

/-- variantEventsData (ExperimentsDashboard.tsx lines 223-240): one row per
event type in the union, filled variant by variant; `[]` when results are
absent (`if (!results?.variant_metrics) return []`). -/
def variantEventsData (s : ChartState) : List (String × List (String × Nat)) :=
  match s.results with
  | some r => (unionEventTypes r.variant_metrics).map (variantEventsRow r.variant_metrics)
  | none => []

/-- Entry of the time-series view (ExperimentsDashboard.tsx lines 242-247). -/
structure TimeSeriesDatum where
  date : String
  variant : String
  conversions : Nat
  rate : Rat

/-- timeSeriesData (ExperimentsDashboard.tsx lines 242-247):
`results?.time_series?.map(...) || []`. The locale date rendering
`new Date(ts.timestamp).toLocaleDateString()` is environment-dependent and
is passed in as `formatDate`. -/
def timeSeriesData (formatDate : String → String) (s : ChartState) :
    List TimeSeriesDatum :=
  match s.results with
  | some r =>
    r.time_series.map (fun ts =>
      { date := formatDate ts.timestamp
        variant := ts.variant_name
        conversions := ts.events
        rate := ts.conversion_rate })
  | none => []

/-! ## Load controller (src/components/ExperimentsDashboard.tsx) -/

/-- Tri-state API health indicator (ExperimentsDashboard.tsx line 50). -/
inductive ApiStatus where
  | checking
  | online
  | offline
deriving DecidableEq, Repr

/-- Health effect on mount (ExperimentsDashboard.tsx lines 61-65):
`checkHealth().then(() => online).catch(() => offline)` — the resolved
value is ignored entirely. -/
def healthEffect (o : HealthFetchOutcome) : ApiStatus :=
  match checkHealth o with
  | .ok _ => .online
  | .error _ => .offline

/-- Component and module state touched by the login and results-load
callbacks: the typed token, the process-wide `authToken` of src/lib/api.ts,
and the dashboard state hooks. -/
structure DashboardState where
  token : String
  isAuthenticated : Bool
  authToken : Option String
  experiments : List Experiment
  selectedExperiment : Option Experiment
  results : Option ExperimentResults
  loading : Bool
  error : Option String

/-- Observable events of one `handleLogin` run, in order: the write to the
process-wide credential store, and each network request with the headers it
carried. -/
inductive LoginEvent where
  | storeCredential (t : String)
  | request (headers : List (String × String))
deriving DecidableEq, Repr

/-- Predicate selecting the network requests of a login trace. -/
def LoginEvent.isRequest : LoginEvent → Bool
  | .request _ => true
  | _ => false

/-- JavaScript `String.prototype.trim`: strip whitespace from both ends.
Defined by structural recursion over the character list (Lean's own
`String.trim` is not kernel-reducible). -/
def jsTrim (s : String) : String :=
  String.mk (((s.toList.dropWhile Char.isWhitespace).reverse.dropWhile
    Char.isWhitespace).reverse)

/-- handleLogin (ExperimentsDashboard.tsx lines 67-87), with the outcome of
the `getExperiments()` call supplied as `net`: an all-whitespace token fails
the `!token.trim()` guard locally, with no store and no request; otherwise
`setAuthToken(token)` runs first, then the request goes out with the headers
`fetchWithAuth` builds from the freshly stored token. Returns the new state
and the ordered event trace. -/
def handleLoginRun (s : DashboardState)
    (net : Except String ExperimentsListResponse) :
    DashboardState × List LoginEvent :=
  if jsTrim s.token = "" then
    ({ s with error := some "Please enter an API token" }, [])
  else
    let s1 := { s with authToken := some s.token, loading := true, error := none }
    let trace := [LoginEvent.storeCredential s.token,
                  LoginEvent.request (requestHeaders s1.authToken)]
    match net with
    | .ok resp =>
      ({ s1 with experiments := resp.experiments, isAuthenticated := true,
                 loading := false }, trace)
    | .error msg =>
      ({ s1 with error := some msg, isAuthenticated := false,
                 loading := false }, trace)

/-- loadExperimentResults (ExperimentsDashboard.tsx lines 89-107), with the
outcome of the `getExperimentResults` call supplied as `net`: the selection
is set first; success stores the new snapshot, failure stores the message
and clears the snapshot. -/
def loadExperimentResults (s : DashboardState) (exp : Experiment)
    (net : Except String ExperimentResults) : DashboardState :=
  let s1 := { s with selectedExperiment := some exp, loading := true, error := none }
  match net with
  | .ok data => { s1 with results := some data, loading := false }
  | .error msg => { s1 with error := some msg, results := none, loading := false }

/-- getAuthToken (src/lib/api.ts lines 15-17): read the process-wide token. -/
def getAuthToken (s : DashboardState) : Option String :=
  s.authToken

/-- Number of network requests recorded in a login trace. -/
def requestCount (tr : List LoginEvent) : Nat :=
  tr.countP (fun e => e.isRequest)

/-! ## Helper lemmas on the insertion-ordered set and record operations -/

theorem mem_foldl_insertIfNew (l acc : List String) (k : String) :
    k ∈ l.foldl insertIfNew acc ↔ k ∈ acc ∨ k ∈ l := by
  induction l generalizing acc with
  | nil => simp
  | cons a t ih =>
    by_cases h : a ∈ acc
    · simp only [List.foldl_cons, insertIfNew, if_pos h, ih, List.mem_cons]
      constructor
      · rintro (hk | hk)
        · exact Or.inl hk
        · exact Or.inr (Or.inr hk)
      · rintro (hk | rfl | hk)
        · exact Or.inl hk
        · exact Or.inl h
        · exact Or.inr hk
    · simp only [List.foldl_cons, insertIfNew, if_neg h, ih, List.mem_append,
        List.mem_singleton, List.mem_cons]
      tauto

theorem nodup_foldl_insertIfNew (l : List String) :
    ∀ acc : List String, acc.Nodup → (l.foldl insertIfNew acc).Nodup := by
  induction l with
  | nil => exact fun _ h => h
  | cons a t ih =>
    intro acc h
    simp only [List.foldl_cons]
    by_cases ha : a ∈ acc
    · simpa [insertIfNew, ha] using ih acc h
    · refine ih _ ?_
      simp only [insertIfNew, if_neg ha]
      exact List.Nodup.append h (List.nodup_singleton a)
        (by intro x hx hx'
            rw [List.mem_singleton] at hx'
            exact ha (hx' ▸ hx))

theorem foldl_insertIfNew_append (l : List String) :
    ∀ acc : List String, ∃ s, l.foldl insertIfNew acc = acc ++ s ∧ s.Sublist l := by
  induction l with
  | nil => exact fun acc => ⟨[], by simp, List.nil_sublist _⟩
  | cons a t ih =>
    intro acc
    by_cases ha : a ∈ acc
    · obtain ⟨s, hs, hsub⟩ := ih acc
      exact ⟨s, by simpa [insertIfNew, ha] using hs,
        hsub.trans (List.sublist_cons_self a t)⟩
    · obtain ⟨s, hs, hsub⟩ := ih (acc ++ [a])
      refine ⟨a :: s, ?_, hsub.cons_cons a⟩
      simp only [List.foldl_cons, insertIfNew, if_neg ha] at hs ⊢
      rw [hs, List.append_assoc]
      rfl

/-- Concatenation of the per-variant event-type key lists, in variant order. -/
def eventTypeKeys (metrics : List VariantMetrics) : List String :=
  (metrics.map (fun vm => vm.events_by_type.map Prod.fst)).flatten

theorem unionEventTypes_eq_foldl (metrics : List VariantMetrics) :
    ∀ acc : List String,
      metrics.foldl
        (fun acc vm => (vm.events_by_type.map Prod.fst).foldl insertIfNew acc) acc
        = (eventTypeKeys metrics).foldl insertIfNew acc := by
  induction metrics with
  | nil => intro acc; simp [eventTypeKeys]
  | cons a t ih =>
    intro acc
    simp only [List.foldl_cons, eventTypeKeys, List.map_cons, List.flatten_cons,
      List.foldl_append]
    exact ih _

theorem lookup_eq_none_of_not_mem_keys (m : List (String × Nat)) (k : String)
    (h : k ∉ m.map Prod.fst) : m.lookup k = none := by
  induction m with
  | nil => rfl
  | cons p t ih =>
    simp only [List.map_cons, List.mem_cons, not_or] at h
    have hne : (k == p.1) = false := by simp [h.1]
    simp [List.lookup, hne, ih h.2]

theorem recordSet_of_not_mem (m : List (String × Nat)) (k : String) (v : Nat)
    (h : k ∉ m.map Prod.fst) : recordSet m k v = m ++ [(k, v)] := by
  simp [recordSet, lookup_eq_none_of_not_mem_keys m k h]

theorem row_foldl_eq (et : String) (metrics : List VariantMetrics) :
    ∀ acc : List (String × Nat),
      (metrics.map (fun vm => vm.variant_name)).Nodup →
      (∀ vm ∈ metrics, vm.variant_name ∉ acc.map Prod.fst) →
      metrics.foldl
          (fun row vm => recordSet row vm.variant_name (lookupOr0 vm.events_by_type et))
          acc
        = acc ++ metrics.map
            (fun vm => (vm.variant_name, lookupOr0 vm.events_by_type et)) := by
  induction metrics with
  | nil => intro acc _ _; simp
  | cons a t ih =>
    intro acc hnd hdisj
    simp only [List.map_cons, List.nodup_cons] at hnd
    simp only [List.foldl_cons]
    rw [recordSet_of_not_mem _ _ _ (hdisj a (List.mem_cons_self a t))]
    rw [ih _ hnd.2 ?_]
    · simp [List.append_assoc]
    · intro vm hvm
      have h1 := hdisj vm (List.mem_cons_of_mem a hvm)
      have h2 : vm.variant_name ≠ a.variant_name := by
        intro heq
        exact hnd.1 (heq ▸ List.mem_map_of_mem (fun vm => vm.variant_name) hvm)
      simp [List.map_append, List.mem_append, h1, h2]

theorem lookup_map_variant_name (f : VariantMetrics → Nat)
    (metrics : List VariantMetrics)
    (hnd : (metrics.map (fun vm => vm.variant_name)).Nodup)
    (vm : VariantMetrics) (hvm : vm ∈ metrics) :
    (metrics.map (fun w => (w.variant_name, f w))).lookup vm.variant_name
      = some (f vm) := by
  induction metrics with
  | nil => cases hvm
  | cons a t ih =>
    simp only [List.map_cons, List.nodup_cons] at hnd
    rcases List.mem_cons.mp hvm with rfl | hvm'
    · simp [List.lookup]
    · have hne : (vm.variant_name == a.variant_name) = false := by
        simp only [beq_eq_false_iff_ne, ne_eq]
        intro heq
        exact hnd.1 (heq ▸ List.mem_map_of_mem (fun w => w.variant_name) hvm')
      simp [List.lookup, hne, ih hnd.2 hvm']

theorem mem_keys_optStrParam (k : String) (v : Option String) :
    k ∈ (optStrParam k v).map Prod.fst ↔ ∃ s, v = some s ∧ s ≠ "" := by
  cases v with
  | none => simp [optStrParam]
  | some s => by_cases hs : s = "" <;> simp [optStrParam, hs]

theorem notMem_keys_optStrParam (k key : String) (hk : k ≠ key)
    (v : Option String) : k ∉ (optStrParam key v).map Prod.fst := by
  cases v with
  | none => simp [optStrParam]
  | some s => by_cases hs : s = "" <;> simp [optStrParam, hs, hk]

theorem mem_keys_optNatParam (k : String) (v : Option Nat) :
    k ∈ (optNatParam k v).map Prod.fst ↔ ∃ n, v = some n ∧ n ≠ 0 := by
  cases v with
  | none => simp [optNatParam]
  | some n => by_cases hn : n = 0 <;> simp [optNatParam, hn]

theorem notMem_keys_optNatParam (k key : String) (hk : k ≠ key)
    (v : Option Nat) : k ∉ (optNatParam key v).map Prod.fst := by
  cases v with
  | none => simp [optNatParam]
  | some n => by_cases hn : n = 0 <;> simp [optNatParam, hn, hk]

theorem mem_keys_optBoolParam (k : String) (v : Option Bool) :
    k ∈ (optBoolParam k v).map Prod.fst ↔ v = some true := by
  cases v with
  | none => simp [optBoolParam]
  | some b => cases b <;> simp [optBoolParam]

theorem notMem_keys_optBoolParam (k key : String) (hk : k ≠ key)
    (v : Option Bool) : k ∉ (optBoolParam key v).map Prod.fst := by
  cases v with
  | none => simp [optBoolParam]
  | some b => cases b <;> simp [optBoolParam, hk]

theorem exists_pair_mem_optStrParam (key : String) (v : Option String) :
    (∃ x, (key, x) ∈ optStrParam key v) ↔ ∃ s, v = some s ∧ s ≠ "" := by
  cases v with
  | none => simp [optStrParam]
  | some s => by_cases hs : s = "" <;> simp [optStrParam, hs]

theorem exists_pair_mem_optNatParam (key : String) (v : Option Nat) :
    (∃ x, (key, x) ∈ optNatParam key v) ↔ ∃ n, v = some n ∧ n ≠ 0 := by
  cases v with
  | none => simp [optNatParam]
  | some n => by_cases hn : n = 0 <;> simp [optNatParam, hn]

theorem exists_pair_mem_optBoolParam (key : String) (v : Option Bool) :
    (∃ x, (key, x) ∈ optBoolParam key v) ↔ v = some true := by
  cases v with
  | none => simp [optBoolParam]
  | some b => cases b <;> simp [optBoolParam]

/-! ## Concrete fixtures used by witnesses and counterexamples -/

/-- Variant metrics "A" from the spec's §8 results-load scenario. -/
def sampleMetricsA : VariantMetrics :=
  { variant_id := 1
    variant_name := "A"
    total_assignments := 100
    total_events := 20
    unique_users_with_events := 18
    conversion_rate := 12.5
    events_by_type := [("click", 15), ("view", 5)]
    events_per_user := 0.2 }

/-- Second variant metrics, with a partially different event-type key set. -/
def sampleMetricsB : VariantMetrics :=
  { variant_id := 2
    variant_name := "B"
    total_assignments := 80
    total_events := 10
    unique_users_with_events := 9
    conversion_rate := 11.25
    events_by_type := [("view", 7), ("buy", 3)]
    events_per_user := 0.125 }

/-- Sample roll-up summary. -/
def sampleSummary : ResultsSummary :=
  { total_assignments := 180
    total_events := 30
    overall_conversion_rate := 12.5
    leading_variant := some "A"
    confidence_level := .low }

/-- Sample results payload with two variants. -/
def sampleResults : ExperimentResults :=
  { experiment_id := 1
    experiment_name := "Exp"
    experiment_status := .running
    analysis_start := "2024-01-01"
    analysis_end := "2024-02-01"
    summary := sampleSummary
    variant_metrics := [sampleMetricsA, sampleMetricsB]
    time_series := []
    events_by_type := [("click", 22)]
    generated_at := "2024-02-02" }

/-- Copy of the "A" metrics under the same variant name with a different
click count, for the duplicate-name record-collision check. -/
def dupMetricsA : VariantMetrics :=
  { sampleMetricsA with variant_id := 3, events_by_type := [("click", 2)] }

/-- Metrics "A" with a click count of 1, paired with `dupMetricsA`. -/
def dupMetricsFirst : VariantMetrics :=
  { sampleMetricsA with events_by_type := [("click", 1)] }

/-- Results payload whose two variant-metrics entries share the name "A". -/
def dupResults : ExperimentResults :=
  { sampleResults with variant_metrics := [dupMetricsFirst, dupMetricsA] }

/-- Results payload with every optional collection empty. -/
def emptyCollectionsResults : ExperimentResults :=
  { sampleResults with
      variant_metrics := []
      time_series := []
      events_by_type := [] }

/-- Sample variants of the selected experiment. -/
def sampleVariant1 : Variant :=
  { id := 1, experiment_id := 1, name := "A", traffic_allocation := 60, config := none }

/-- Second sample variant. -/
def sampleVariant2 : Variant :=
  { id := 2, experiment_id := 1, name := "B", traffic_allocation := 40, config := none }

/-- Sample experiment with two variants. -/
def sampleExperiment : Experiment :=
  { id := 1
    name := "Exp"
    description := none
    status := .running
    created_at := "2024-01-01"
    started_at := some "2024-01-02"
    ended_at := none
    variants := [sampleVariant1, sampleVariant2] }

/-- Sample `getExperiments` response. -/
def sampleListResponse : ExperimentsListResponse :=
  { experiments := [sampleExperiment], total := 1, limit := 100, offset := 0 }

/-- Dashboard state before login, with the token text set to `tok`. -/
def initialState (tok : String) : DashboardState :=
  { token := tok
    isAuthenticated := false
    authToken := none
    experiments := []
    selectedExperiment := none
    results := none
    loading := false
    error := none }

/-! ## Claim theorems -/

/-- C1 counterexample: a status-500 response whose body is absent or
unparsable makes `fetchWithAuth` fail with "Unknown error" (the `.catch`
substitute detail), not with the generic "HTTP 500" the claim requires. -/
theorem fetchWithAuth_no_body_500_counterexample :
    fetchWithAuth { ok := false, status := 500, body := .failed }
        = .error "Unknown error"
    ∧ fetchWithAuth { ok := false, status := 500, body := .failed }
        ≠ .error "HTTP 500" := by
  refine ⟨rfl, ?_⟩
  intro h
  rw [show fetchWithAuth { ok := false, status := 500, body := .failed }
      = .error "Unknown error" from rfl] at h
  injection h with h'
  exact absurd h' (by decide)

/-- C1 (amended): for every non-2xx response, `fetchWithAuth` fails with the
server-supplied detail when the error body parses with a truthy `detail`
(in particular 401 with detail "Invalid token" fails with "Invalid token");
when the body is absent or unparsable it fails with "Unknown error"; the
generic "HTTP <status>" message is used exactly when the body parses but
carries no truthy `detail`. -/
theorem fetchWithAuth_error_message (resp : HttpResponse) (h : resp.ok = false) :
    (∀ d, resp.body = .parsed (some d) → d ≠ "" →
        fetchWithAuth resp = .error d)
    ∧ (resp.body = .failed → fetchWithAuth resp = .error "Unknown error")
    ∧ (resp.body = .parsed none →
        fetchWithAuth resp = .error ("HTTP " ++ toString resp.status))
    ∧ (resp.body = .parsed (some "") →
        fetchWithAuth resp = .error ("HTTP " ++ toString resp.status)) := by
  refine ⟨?_, ?_, ?_, ?_⟩
  · intro d hb hd
    simp [fetchWithAuth, h, hb, errorDetail, jsOr, hd]
  · intro hb
    simp [fetchWithAuth, h, hb, errorDetail, jsOr]
  · intro hb
    simp [fetchWithAuth, h, hb, errorDetail, jsOr]
  · intro hb
    simp [fetchWithAuth, h, hb, errorDetail, jsOr]

/-- C1 witness: the spec's own scenarios, evaluated: 401 with detail
"Invalid token" fails with "Invalid token"; a parsed body without detail
falls back to "HTTP 404". -/
theorem fetchWithAuth_error_message_witness :
    ({ ok := false, status := 401, body := .parsed (some "Invalid token") }
        : HttpResponse).ok = false
    ∧ fetchWithAuth { ok := false, status := 401, body := .parsed (some "Invalid token") }
        = .error "Invalid token"
    ∧ fetchWithAuth { ok := false, status := 404, body := .parsed none }
        = .error "HTTP 404" := by
  refine ⟨rfl, ?_, rfl⟩
  exact (fetchWithAuth_error_message
    { ok := false, status := 401, body := .parsed (some "Invalid token") }
    rfl).1 "Invalid token" rfl (by decide)

/-- C3: the conversion view maps each `variant_metrics` entry, in order, to
`(variant name, conversion rate as received, total assignments, total
events)`, with no rescaling of the rate. -/
theorem conversionData_spec (s : ChartState) (R : ExperimentResults)
    (h : s.results = some R) :
    (conversionData s).length = R.variant_metrics.length
    ∧ ∀ i (hi : i < (conversionData s).length)
        (hi' : i < R.variant_metrics.length),
        (conversionData s).get ⟨i, hi⟩ =
          { variant := (R.variant_metrics.get ⟨i, hi'⟩).variant_name
            rate := (R.variant_metrics.get ⟨i, hi'⟩).conversion_rate
            assignments := (R.variant_metrics.get ⟨i, hi'⟩).total_assignments
            events := (R.variant_metrics.get ⟨i, hi'⟩).total_events } := by
  obtain ⟨sel, res⟩ := s
  cases res with
  | none => cases h
  | some r =>
    cases h
    constructor
    · simp [conversionData]
    · intro i hi hi'
      simp [conversionData, List.get_eq_getElem, List.getElem_map]

/-- C3 witness: the spec's §8 results-load scenario, evaluated exactly. -/
theorem conversionData_spec_witness :
    (({ selectedExperiment := none, results := some sampleResults }
        : ChartState).results = some sampleResults)
    ∧ (conversionData { selectedExperiment := none, results := some sampleResults }).length
        = sampleResults.variant_metrics.length
    ∧ conversionData
        { selectedExperiment := none,
          results := some { sampleResults with variant_metrics := [sampleMetricsA] } }
        = [{ variant := "A", rate := 12.5, assignments := 100, events := 20 }] := by
  refine ⟨rfl, ?_, rfl⟩
  exact (conversionData_spec
    { selectedExperiment := none, results := some sampleResults }
    sampleResults rfl).1

/-- C4 counterexample: the credential " " is a non-empty string, yet login
fails locally with the validation message and makes zero network requests —
refuting "issues a network call if and only if the credential is non-empty". -/
theorem handleLogin_whitespace_counterexample :
    " " ≠ ""
    ∧ requestCount (handleLoginRun (initialState " ") (.ok sampleListResponse)).2 = 0
    ∧ (handleLoginRun (initialState " ") (.ok sampleListResponse)).1.error
        = some "Please enter an API token" := by
  exact ⟨by decide, rfl, rfl⟩

/-- C4 (amended): login issues a network call if and only if the credential
is non-blank (non-empty after trimming whitespace); a blank credential fails
locally with the validation message and zero requests, leaving the rest of
the state unchanged; otherwise the credential is stored and the
`listExperiments` request goes out. -/
theorem handleLogin_network_iff_nonblank (s : DashboardState)
    (net : Except String ExperimentsListResponse) :
    (requestCount (handleLoginRun s net).2 = 1 ↔ jsTrim s.token ≠ "")
    ∧ (jsTrim s.token = "" →
        handleLoginRun s net
          = ({ s with error := some "Please enter an API token" }, []))
    ∧ (jsTrim s.token ≠ "" →
        (handleLoginRun s net).1.authToken = some s.token
        ∧ requestCount (handleLoginRun s net).2 = 1) := by
  by_cases h : jsTrim s.token = "" <;>
    cases net <;>
    simp [handleLoginRun, requestCount, h, LoginEvent.isRequest]

/-- C4 witness: a blank and a non-blank login, evaluated. -/
theorem handleLogin_network_iff_nonblank_witness :
    (jsTrim (initialState "secret").token ≠ ""
      → (handleLoginRun (initialState "secret") (.ok sampleListResponse)).1.authToken
            = some "secret"
        ∧ requestCount (handleLoginRun (initialState "secret") (.ok sampleListResponse)).2 = 1)
    ∧ jsTrim (initialState "secret").token ≠ ""
    ∧ requestCount (handleLoginRun (initialState "\t ") (.error "nope")).2 = 0 := by
  refine ⟨(handleLogin_network_iff_nonblank (initialState "secret")
    (.ok sampleListResponse)).2.2, by decide, rfl⟩

/-- C5: when a results load fails, the controller ends Failed — results
cleared to `null`, the selected experiment still the one whose load was
attempted, the error message surfaced, loading over; on success the new
snapshot wholly replaces any previous one. -/
theorem loadExperimentResults_spec (s : DashboardState) (exp : Experiment)
    (msg : String) (data : ExperimentResults) :
    (loadExperimentResults s exp (.error msg)).results = none
    ∧ (loadExperimentResults s exp (.error msg)).selectedExperiment = some exp
    ∧ (loadExperimentResults s exp (.error msg)).error = some msg
    ∧ (loadExperimentResults s exp (.error msg)).loading = false
    ∧ (loadExperimentResults s exp (.ok data)).results = some data
    ∧ (loadExperimentResults s exp (.ok data)).selectedExperiment = some exp
    ∧ (loadExperimentResults s exp (.ok data)).error = none
    ∧ (loadExperimentResults s exp (.ok data)).loading = false := by
  exact ⟨rfl, rfl, rfl, rfl, rfl, rfl, rfl, rfl⟩

/-- C6 counterexample: `offset := 0` is present, yet the serialized query is
empty — the truthiness guard drops present-but-zero parameters, refuting
"contains a key if and only if the parameter is present". -/
theorem query_offset_zero_counterexample :
    getExperimentsQuery { status := none, limit := none, offset := some 0 } = []
    ∧ ({ status := none, limit := none, offset := some 0 }
        : GetExperimentsParams).offset ≠ none := by
  exact ⟨rfl, by decide⟩

/-- C6 (amended): a key appears in the serialized query if and only if the
corresponding parameter is present AND truthy — non-empty for strings,
non-zero for `limit`/`offset`, and `true` for `include_time_series`, which
is then serialized as the literal "true". Absent parameters never appear. -/
theorem query_key_iff_truthy (p : GetExperimentsParams) (q : GetResultsParams) :
    ("status" ∈ (getExperimentsQuery p).map Prod.fst
        ↔ ∃ s, p.status = some s ∧ s ≠ "")
    ∧ ("limit" ∈ (getExperimentsQuery p).map Prod.fst
        ↔ ∃ n, p.limit = some n ∧ n ≠ 0)
    ∧ ("offset" ∈ (getExperimentsQuery p).map Prod.fst
        ↔ ∃ n, p.offset = some n ∧ n ≠ 0)
    ∧ ("start_date" ∈ (getExperimentResultsQuery q).map Prod.fst
        ↔ ∃ s, q.start_date = some s ∧ s ≠ "")
    ∧ ("end_date" ∈ (getExperimentResultsQuery q).map Prod.fst
        ↔ ∃ s, q.end_date = some s ∧ s ≠ "")
    ∧ ("event_types" ∈ (getExperimentResultsQuery q).map Prod.fst
        ↔ ∃ s, q.event_types = some s ∧ s ≠ "")
    ∧ ("format" ∈ (getExperimentResultsQuery q).map Prod.fst
        ↔ ∃ s, q.format = some s ∧ s ≠ "")
    ∧ ("include_time_series" ∈ (getExperimentResultsQuery q).map Prod.fst
        ↔ q.include_time_series = some true)
    ∧ (q.include_time_series = some true →
        ("include_time_series", "true") ∈ getExperimentResultsQuery q)
    ∧ ("time_series_granularity" ∈ (getExperimentResultsQuery q).map Prod.fst
        ↔ ∃ s, q.time_series_granularity = some s ∧ s ≠ "") := by
  refine ⟨?_, ?_, ?_, ?_, ?_, ?_, ?_, ?_, ?_, ?_⟩
  · simp [getExperimentsQuery, List.map_append, List.mem_append,
      mem_keys_optStrParam, exists_pair_mem_optStrParam,
      notMem_keys_optNatParam "status" "limit" (by decide),
      notMem_keys_optNatParam "status" "offset" (by decide)]
  · simp [getExperimentsQuery, List.map_append, List.mem_append,
      mem_keys_optNatParam, exists_pair_mem_optNatParam,
      notMem_keys_optStrParam "limit" "status" (by decide),
      notMem_keys_optNatParam "limit" "offset" (by decide)]
  · simp [getExperimentsQuery, List.map_append, List.mem_append,
      mem_keys_optNatParam, exists_pair_mem_optNatParam,
      notMem_keys_optStrParam "offset" "status" (by decide),
      notMem_keys_optNatParam "offset" "limit" (by decide)]
  · simp [getExperimentResultsQuery, List.map_append, List.mem_append,
      mem_keys_optStrParam, exists_pair_mem_optStrParam,
      notMem_keys_optStrParam "start_date" "end_date" (by decide),
      notMem_keys_optStrParam "start_date" "event_types" (by decide),
      notMem_keys_optStrParam "start_date" "format" (by decide),
      notMem_keys_optBoolParam "start_date" "include_time_series" (by decide),
      notMem_keys_optStrParam "start_date" "time_series_granularity" (by decide)]
  · simp [getExperimentResultsQuery, List.map_append, List.mem_append,
      mem_keys_optStrParam, exists_pair_mem_optStrParam,
      notMem_keys_optStrParam "end_date" "start_date" (by decide),
      notMem_keys_optStrParam "end_date" "event_types" (by decide),
      notMem_keys_optStrParam "end_date" "format" (by decide),
      notMem_keys_optBoolParam "end_date" "include_time_series" (by decide),
      notMem_keys_optStrParam "end_date" "time_series_granularity" (by decide)]
  · simp [getExperimentResultsQuery, List.map_append, List.mem_append,
      mem_keys_optStrParam, exists_pair_mem_optStrParam,
      notMem_keys_optStrParam "event_types" "start_date" (by decide),
      notMem_keys_optStrParam "event_types" "end_date" (by decide),
      notMem_keys_optStrParam "event_types" "format" (by decide),
      notMem_keys_optBoolParam "event_types" "include_time_series" (by decide),
      notMem_keys_optStrParam "event_types" "time_series_granularity" (by decide)]
  · simp [getExperimentResultsQuery, List.map_append, List.mem_append,
      mem_keys_optStrParam, exists_pair_mem_optStrParam,
      notMem_keys_optStrParam "format" "start_date" (by decide),
      notMem_keys_optStrParam "format" "end_date" (by decide),
      notMem_keys_optStrParam "format" "event_types" (by decide),
      notMem_keys_optBoolParam "format" "include_time_series" (by decide),
      notMem_keys_optStrParam "format" "time_series_granularity" (by decide)]
  · simp [getExperimentResultsQuery, List.map_append, List.mem_append,
      mem_keys_optBoolParam, exists_pair_mem_optBoolParam,
      notMem_keys_optStrParam "include_time_series" "start_date" (by decide),
      notMem_keys_optStrParam "include_time_series" "end_date" (by decide),
      notMem_keys_optStrParam "include_time_series" "event_types" (by decide),
      notMem_keys_optStrParam "include_time_series" "format" (by decide),
      notMem_keys_optStrParam "include_time_series" "time_series_granularity" (by decide)]
  · intro hq
    simp [getExperimentResultsQuery, List.mem_append, optBoolParam, hq]
  · simp [getExperimentResultsQuery, List.map_append, List.mem_append,
      mem_keys_optStrParam, exists_pair_mem_optStrParam,
      notMem_keys_optStrParam "time_series_granularity" "start_date" (by decide),
      notMem_keys_optStrParam "time_series_granularity" "end_date" (by decide),
      notMem_keys_optStrParam "time_series_granularity" "event_types" (by decide),
      notMem_keys_optStrParam "time_series_granularity" "format" (by decide),
      notMem_keys_optBoolParam "time_series_granularity" "include_time_series" (by decide)]

/-- C6 witness: a fully populated and a sparse parameter record, evaluated. -/
theorem query_key_iff_truthy_witness :
    ("offset" ∈ (getExperimentsQuery
        { status := some "running", limit := some 10, offset := some 5 }).map Prod.fst
      ↔ ∃ n, (some 5 : Option Nat) = some n ∧ n ≠ 0)
    ∧ getExperimentsQuery { status := some "running", limit := some 10, offset := some 5 }
        = [("status", "running"), ("limit", "10"), ("offset", "5")]
    ∧ getExperimentResultsQuery
        { start_date := none, end_date := none, event_types := none,
          format := some "full", include_time_series := some true,
          time_series_granularity := some "day" }
        = [("format", "full"), ("include_time_series", "true"),
           ("time_series_granularity", "day")]
    ∧ getExperimentResultsQuery
        { start_date := none, end_date := none, event_types := none,
          format := none, include_time_series := some false,
          time_series_granularity := none } = [] := by
  refine ⟨?_, rfl, rfl, rfl⟩
  exact (query_key_iff_truthy
    { status := some "running", limit := some 10, offset := some 5 }
    { start_date := none, end_date := none, event_types := none,
      format := none, include_time_series := none,
      time_series_granularity := none }).2.2.1

/-- C7: the allocation view has one `(name, traffic_allocation)` entry per
variant of the selected experiment, in order and unchanged; it does not
depend on the results snapshot, and it is empty when no experiment is
selected. -/
theorem variantAllocationData_spec (sel : Option Experiment)
    (res res' : Option ExperimentResults) (e : Experiment)
    (h : sel = some e) :
    variantAllocationData { selectedExperiment := sel, results := res }
        = variantAllocationData { selectedExperiment := sel, results := res' }
    ∧ variantAllocationData { selectedExperiment := none, results := res } = []
    ∧ (variantAllocationData { selectedExperiment := sel, results := res }).length
        = e.variants.length
    ∧ ∀ i (hi : i <
          (variantAllocationData { selectedExperiment := sel, results := res }).length)
        (hi' : i < e.variants.length),
        (variantAllocationData { selectedExperiment := sel, results := res }).get ⟨i, hi⟩
          = ((e.variants.get ⟨i, hi'⟩).name,
             (e.variants.get ⟨i, hi'⟩).traffic_allocation) := by
  subst h
  refine ⟨rfl, rfl, by simp [variantAllocationData], ?_⟩
  intro i hi hi'
  simp [variantAllocationData, List.get_eq_getElem, List.getElem_map]

/-- C7 witness: the sample experiment, with and without results. -/
theorem variantAllocationData_spec_witness :
    (variantAllocationData
        { selectedExperiment := some sampleExperiment, results := none }).length
        = sampleExperiment.variants.length
    ∧ variantAllocationData
        { selectedExperiment := some sampleExperiment, results := none }
        = [("A", 60), ("B", 40)]
    ∧ variantAllocationData
        { selectedExperiment := some sampleExperiment, results := some sampleResults }
        = [("A", 60), ("B", 40)] := by
  refine ⟨?_, rfl, rfl⟩
  exact (variantAllocationData_spec (some sampleExperiment) none none
    sampleExperiment rfl).2.2.1

/-- C8: every transformer is total on partial or absent input — a null
results snapshot, a null selected experiment, or empty `variants`,
`variant_metrics`, `time_series` or `events_by_type` collections yield the
empty view model. -/
theorem transformers_total_on_empty :
    (∀ res : Option ExperimentResults,
        variantAllocationData { selectedExperiment := none, results := res } = [])
    ∧ (∀ sel : Option Experiment,
        conversionData { selectedExperiment := sel, results := none } = []
        ∧ eventsByTypeData { selectedExperiment := sel, results := none } = []
        ∧ variantEventsData { selectedExperiment := sel, results := none } = []
        ∧ ∀ fd : String → String,
            timeSeriesData fd { selectedExperiment := sel, results := none } = [])
    ∧ (∀ (r : Option ExperimentResults) (e : Experiment), e.variants = [] →
        variantAllocationData { selectedExperiment := some e, results := r } = [])
    ∧ (∀ (sel : Option Experiment) (R : ExperimentResults),
        R.variant_metrics = [] →
        conversionData { selectedExperiment := sel, results := some R } = []
        ∧ variantEventsData { selectedExperiment := sel, results := some R } = [])
    ∧ (∀ (sel : Option Experiment) (R : ExperimentResults),
        R.time_series = [] → ∀ fd : String → String,
        timeSeriesData fd { selectedExperiment := sel, results := some R } = [])
    ∧ (∀ (sel : Option Experiment) (R : ExperimentResults),
        R.events_by_type = [] →
        eventsByTypeData { selectedExperiment := sel, results := some R } = []) := by
  refine ⟨fun res => rfl, fun sel => ⟨rfl, rfl, rfl, fun fd => rfl⟩, ?_, ?_, ?_, ?_⟩
  · intro r e he
    simp [variantAllocationData, he]
  · intro sel R hm
    exact ⟨by simp [conversionData, hm],
      by simp [variantEventsData, unionEventTypes, hm]⟩
  · intro sel R ht fd
    simp [timeSeriesData, ht]
  · intro sel R he
    simp [eventsByTypeData, he]

/-- C8 witness: the empty-collections results payload, evaluated through
every transformer. -/
theorem transformers_total_on_empty_witness :
    emptyCollectionsResults.variant_metrics = []
    ∧ conversionData
        { selectedExperiment := none, results := some emptyCollectionsResults } = []
    ∧ variantEventsData
        { selectedExperiment := none, results := some emptyCollectionsResults } = []
    ∧ eventsByTypeData
        { selectedExperiment := none, results := some emptyCollectionsResults } = []
    ∧ variantAllocationData
        ({ selectedExperiment := none, results := none } : ChartState) = [] := by
  refine ⟨rfl, ?_, ?_, ?_, rfl⟩
  · exact ((transformers_total_on_empty.2.2.2.1) none
      emptyCollectionsResults rfl).1
  · exact ((transformers_total_on_empty.2.2.2.1) none
      emptyCollectionsResults rfl).2
  · exact (transformers_total_on_empty.2.2.2.2.2) none
      emptyCollectionsResults rfl

/-- C9: the indicator becomes "offline" exactly when the health probe
fails (network failure or an unparsable body make `checkHealth` reject),
and becomes "online" whenever the probe resolves, whatever the shape or
status of the response and whatever JSON value the body holds. -/
theorem healthEffect_spec (o : HealthFetchOutcome) :
    (healthEffect o = .offline ↔ ∃ msg, checkHealth o = .error msg)
    ∧ (∀ j, checkHealth o = .ok j → healthEffect o = .online)
    ∧ (∀ (ok : Bool) (st : Nat) (j : Json),
        healthEffect (.response ok st (some j)) = .online)
    ∧ healthEffect .networkError = .offline := by
  refine ⟨?_, ?_, fun ok st j => rfl, rfl⟩
  · cases o with
    | networkError => simp [healthEffect, checkHealth]
    | response ok st body =>
      cases body with
      | none => simp [healthEffect, checkHealth]
      | some j => simp [healthEffect, checkHealth]
  · intro j hj
    cases o with
    | networkError => cases hj
    | response ok st body =>
      cases body with
      | none => cases hj
      | some j' => simp [healthEffect, checkHealth]

/-- C9 witness: a resolved probe with a non-record body shape is online; a
network failure is offline. -/
theorem healthEffect_spec_witness :
    checkHealth (.response false 500 (some (.str "weird"))) = .ok (.str "weird")
    ∧ healthEffect (.response false 500 (some (.str "weird"))) = .online
    ∧ healthEffect .networkError = .offline := by
  refine ⟨rfl, ?_, rfl⟩
  exact (healthEffect_spec (.response false 500 (some (.str "weird")))).2.1
    (.str "weird") rfl

/-- C10: when the credential passes local validation, `setAuthToken` runs
strictly before the validating `listExperiments` request, which already
carries the bearer header; a failed login does not clear the store —
`getAuthToken` still returns the failed token and later requests keep
attaching it as the Authorization bearer header. -/
theorem handleLogin_credential_stored_first (s : DashboardState)
    (net : Except String ExperimentsListResponse)
    (h : jsTrim s.token ≠ "") :
    (handleLoginRun s net).2
        = [.storeCredential s.token, .request (requestHeaders (some s.token))]
    ∧ s.token ≠ ""
    ∧ ("Authorization", "Bearer " ++ s.token) ∈ requestHeaders (some s.token)
    ∧ getAuthToken (handleLoginRun s net).1 = some s.token
    ∧ ("Authorization", "Bearer " ++ s.token)
        ∈ requestHeaders (getAuthToken (handleLoginRun s net).1) := by
  have ht : s.token ≠ "" := by
    intro he
    exact h (by rw [he]; rfl)
  refine ⟨?_, ht, ?_, ?_, ?_⟩
  · cases net <;> simp [handleLoginRun, h]
  · simp [requestHeaders, ht]
  · cases net <;> simp [handleLoginRun, h, getAuthToken]
  · have hg : getAuthToken (handleLoginRun s net).1 = some s.token := by
      cases net <;> simp [handleLoginRun, h, getAuthToken]
    rw [hg]
    simp [requestHeaders, ht]

/-- C10 witness: a failed login with token "tok", evaluated - the trace
stores then requests, and the store still answers "tok" afterwards. -/
theorem handleLogin_credential_stored_first_witness :
    jsTrim (initialState "tok").token ≠ ""
    ∧ (handleLoginRun (initialState "tok") (.error "Invalid token")).2
        = [.storeCredential "tok",
           .request [("Content-Type", "application/json"),
                     ("Authorization", "Bearer tok")]]
    ∧ getAuthToken (handleLoginRun (initialState "tok") (.error "Invalid token")).1
        = some "tok" := by
  refine ⟨by decide, rfl, ?_⟩
  exact (handleLogin_credential_stored_first (initialState "tok")
    (.error "Invalid token") (by decide)).2.2.2.1

/-- Matrix row contents under pairwise-distinct variant names: the record
fills with exactly one cell per variant, in variant order. -/
theorem variantEventsRow_snd_eq (et : String) (ms : List VariantMetrics)
    (hnd : (ms.map (fun vm => vm.variant_name)).Nodup) :
    (variantEventsRow ms et).2
      = ms.map (fun vm => (vm.variant_name, lookupOr0 vm.events_by_type et)) := by
  have h := row_foldl_eq et ms [] hnd (by intro vm _; simp)
  simpa [variantEventsRow] using h

/-- C2 counterexample: when two `variant_metrics` entries share the variant
name "A" (click counts 1 and 2), the matrix row holds a single "A" column
with the later count 2 — the first entry's count 1 appears in no cell, so
the per-variant cell clause fails as stated for this `ExperimentResults`. -/
theorem variantEventsData_duplicate_name_counterexample :
    variantEventsData { selectedExperiment := none, results := some dupResults }
        = [("Click", [("A", 2)])]
    ∧ dupResults.variant_metrics.map (fun vm => lookupOr0 vm.events_by_type "click")
        = [1, 2]
    ∧ dupResults.variant_metrics.map (fun vm => vm.variant_name) = ["A", "A"] := by
  exact ⟨rfl, rfl, rfl⟩

/-- C2 (amended): for every `ExperimentResults` whose variant names are
pairwise distinct (with duplicated names the record collapses the columns,
keeping the last variant's count), the matrix has exactly one row per
distinct event-type key across `variant_metrics` — no duplicates, keys drawn
from the concatenated key lists in first-seen order, the row label the
capitalized key — and, in every row, one column per variant name whose value
is that variant's count for the row's event type, or 0 when the variant has
no entry for it; the lookup always yields `some`, never a missing cell. -/
theorem variantEventsData_matrix (R : ExperimentResults) (sel : Option Experiment)
    (hnames : (R.variant_metrics.map (fun vm => vm.variant_name)).Nodup) :
    (variantEventsData { selectedExperiment := sel, results := some R }).length
        = (unionEventTypes R.variant_metrics).length
    ∧ (unionEventTypes R.variant_metrics).Nodup
    ∧ (unionEventTypes R.variant_metrics).Sublist (eventTypeKeys R.variant_metrics)
    ∧ (∀ k, k ∈ unionEventTypes R.variant_metrics ↔
          ∃ vm ∈ R.variant_metrics, k ∈ vm.events_by_type.map Prod.fst)
    ∧ ∀ i (hi : i <
          (variantEventsData { selectedExperiment := sel, results := some R }).length)
        (hi' : i < (unionEventTypes R.variant_metrics).length),
        ((variantEventsData { selectedExperiment := sel, results := some R }).get
              ⟨i, hi⟩).1
            = capitalize ((unionEventTypes R.variant_metrics).get ⟨i, hi'⟩)
        ∧ ((variantEventsData { selectedExperiment := sel, results := some R }).get
              ⟨i, hi⟩).2.map Prod.fst
            = R.variant_metrics.map (fun vm => vm.variant_name)
        ∧ ∀ vm ∈ R.variant_metrics,
            ((variantEventsData { selectedExperiment := sel, results := some R }).get
                ⟨i, hi⟩).2.lookup vm.variant_name
              = some (lookupOr0 vm.events_by_type
                  ((unionEventTypes R.variant_metrics).get ⟨i, hi'⟩)) := by
  have hU : unionEventTypes R.variant_metrics
      = (eventTypeKeys R.variant_metrics).foldl insertIfNew [] :=
    unionEventTypes_eq_foldl R.variant_metrics []
  refine ⟨?_, ?_, ?_, ?_, ?_⟩
  · exact List.length_map _ _
  · rw [hU]
    exact nodup_foldl_insertIfNew _ [] List.nodup_nil
  · obtain ⟨s, hs, hsub⟩ := foldl_insertIfNew_append (eventTypeKeys R.variant_metrics) []
    rw [hU, hs]
    simpa using hsub
  · intro k
    rw [hU, mem_foldl_insertIfNew]
    simp only [List.not_mem_nil, false_or]
    constructor
    · intro hk
      have hk' : k ∈ (R.variant_metrics.map
          (fun vm => vm.events_by_type.map Prod.fst)).flatten := hk
      obtain ⟨l, hl, hkl⟩ := List.mem_flatten.mp hk'
      obtain ⟨vm, hvm, rfl⟩ := List.mem_map.mp hl
      exact ⟨vm, hvm, hkl⟩
    · rintro ⟨vm, hvm, hk⟩
      show k ∈ (R.variant_metrics.map
          (fun vm => vm.events_by_type.map Prod.fst)).flatten
      exact List.mem_flatten.mpr
        ⟨vm.events_by_type.map Prod.fst, List.mem_map_of_mem _ hvm, hk⟩
  · intro i hi hi'
    have hrow : (variantEventsData
          { selectedExperiment := sel, results := some R }).get ⟨i, hi⟩
        = variantEventsRow R.variant_metrics
            ((unionEventTypes R.variant_metrics).get ⟨i, hi'⟩) := by
      show ((unionEventTypes R.variant_metrics).map
          (variantEventsRow R.variant_metrics)).get ⟨i, hi⟩ = _
      simp [List.get_eq_getElem, List.getElem_map]
    refine ⟨by rw [hrow]; rfl, ?_, ?_⟩
    · rw [hrow, variantEventsRow_snd_eq _ _ hnames, List.map_map]
      rfl
    · intro vm hvm
      rw [hrow, variantEventsRow_snd_eq _ _ hnames]
      exact lookup_map_variant_name _ R.variant_metrics hnames vm hvm

/-- C2 witness: the two-variant sample payload with overlapping key sets,
evaluated — absent combinations fill with 0, present ones keep their count. -/
theorem variantEventsData_matrix_witness :
    (sampleResults.variant_metrics.map (fun vm => vm.variant_name)).Nodup
    ∧ (variantEventsData
          { selectedExperiment := none, results := some sampleResults }).length
        = (unionEventTypes sampleResults.variant_metrics).length
    ∧ variantEventsData { selectedExperiment := none, results := some sampleResults }
        = [("Click", [("A", 15), ("B", 0)]),
           ("View", [("A", 5), ("B", 7)]),
           ("Buy", [("A", 0), ("B", 3)])] := by
  refine ⟨by decide, ?_, rfl⟩
  exact (variantEventsData_matrix sampleResults none (by decide)).1

end NeonBlue
